import Mathlib

/-!
Verification development for the Evalu8 hiring-simulation server.

This file shallowly embeds the core of the repository:
  * the JSON/JavaScript value coercions used by the parse-and-normalize
    steps of the two agent services (`server/services/evaluationAgent.ts`
    and `server/services/interviewAgent.ts`),
  * the record store (`server/storage.ts`) as an explicit state type, and
  * the candidate-facing route handlers of `server/routes.ts`
    (`POST /api/public/applications/:appId/message` and
     `POST /api/public/applications/:appId/submit`) as state-passing
    functions parameterized by the outcome of the external completion call.

Conventions: machine floats that flow out of `JSON.parse` are modelled as
rationals together with the IEEE special values `NaN`, `+Infinity`,
`-Infinity`; external calls that may reject are modelled as `Except Unit`
parameters; timestamps are modelled by a monotone counter in the store.
-/

/-- Numbers as JavaScript sees them: the special values plus finite values
(modelled as rationals; IEEE rounding of decimal literals is not load-bearing
for any property proved below). -/
inductive JSNum where
  | nan
  | posInf
  | negInf
  | num (q : ℚ)
deriving DecidableEq

/-- Scalar JSON/JavaScript values that a field of a parsed model response can
hold. Arrays and objects in a *numeric* field are not modelled (like
non-numeric strings they are truthy and, except for singleton arrays, coerce
to `NaN`); array-valued fields of the agents are modelled directly by
`Option`/`List` in the raw result structures below. -/
inductive JSValue where
  | undefined
  | null
  | bool (b : Bool)
  | num (n : JSNum)
  | str (s : String)
deriving DecidableEq

/-- JavaScript truthiness: `undefined`, `null`, `false`, `±0`, `NaN` and the
empty string are falsy, everything else is truthy. -/
def truthy : JSValue → Bool
  | .undefined => false
  | .null => false
  | .bool b => b
  | .num .nan => false
  | .num (.num q) => q != 0
  | .num _ => true
  | .str s => s != ""

/-- Digit-string value; `none` when a non-digit character occurs or the list
is empty. -/
def parseDigits : List Char → Option Nat
  | [] => none
  | cs => cs.foldlM (fun n c => if c.isDigit then some (10 * n + (c.toNat - 48)) else none) 0

/-- Unsigned decimal literal (`12`, `12.5`, `.5`, `1.`) as a rational. -/
def parseUnsigned (cs : List Char) : Option ℚ :=
  let intPart := cs.takeWhile (fun c => c != '.')
  match cs.dropWhile (fun c => c != '.') with
  | [] => (parseDigits intPart).map (fun n => (n : ℚ))
  | _ :: frac =>
    if intPart.isEmpty && frac.isEmpty then none
    else
      let ip := if intPart.isEmpty then some 0 else parseDigits intPart
      let fp := if frac.isEmpty then some 0 else parseDigits frac
      match ip, fp with
      | some i, some f => some (mkRat ((i * 10 ^ frac.length + f : ℕ) : ℤ) (10 ^ frac.length))
      | _, _ => none

/-- JavaScript string-to-number coercion, restricted to plain decimal
literals: surrounding whitespace is trimmed, the empty string is `0`, an
optional sign precedes the digits, anything else is `NaN` (the exotic forms
`0x…`, `1e3`, `Infinity` are conservatively sent to `NaN`; no claim below
depends on them). -/
def strToNumber (s : String) : JSNum :=
  match (s.toList.dropWhile Char.isWhitespace).reverse.dropWhile Char.isWhitespace |>.reverse with
  | [] => .num 0
  | '+' :: rest =>
    match parseUnsigned rest with
    | some q => .num q
    | none => .nan
  | '-' :: rest =>
    match parseUnsigned rest with
    | some q => .num (-q)
    | none => .nan
  | cs =>
    match parseUnsigned cs with
    | some q => .num q
    | none => .nan

/-- JavaScript `ToNumber` on scalar values. -/
def toNumber : JSValue → JSNum
  | .undefined => .nan
  | .null => .num 0
  | .bool b => .num (if b then 1 else 0)
  | .num n => n
  | .str s => strToNumber s

/-- `Math.round`: `NaN` and the infinities pass through, a finite value `q`
is rounded to the nearest integer with ties toward `+∞`, i.e. to
`⌊q + 1/2⌋`, computed on the numerator and denominator as
`(2 * num + den).fdiv (2 * den)` (see `jsRound_eq_floor`). -/
def jsRound : JSNum → JSNum
  | .nan => .nan
  | .posInf => .posInf
  | .negInf => .negInf
  | .num q => .num (((2 * q.num + (q.den : ℤ)).fdiv (2 * (q.den : ℤ)) : ℤ) : ℚ)

/-- `Math.min` on two numbers: `NaN` is absorbing, otherwise the smaller. -/
def jsMin (a b : JSNum) : JSNum :=
  match a, b with
  | .nan, _ => .nan
  | _, .nan => .nan
  | .negInf, _ => .negInf
  | _, .negInf => .negInf
  | .posInf, x => x
  | x, .posInf => x
  | .num p, .num q => .num (if p ≤ q then p else q)

/-- `Math.max` on two numbers: `NaN` is absorbing, otherwise the larger. -/
def jsMax (a b : JSNum) : JSNum :=
  match a, b with
  | .nan, _ => .nan
  | _, .nan => .nan
  | .posInf, _ => .posInf
  | _, .posInf => .posInf
  | .negInf, x => x
  | x, .negInf => x
  | .num p, .num q => .num (if p ≤ q then q else p)

/-- The score normalizer of `runEvaluationAgent`
(`const clamp = (v) => Math.max(0, Math.min(100, Math.round(v || 0)))`),
applied to whatever scalar the parsed JSON holds in a numeric field. -/
def clamp (v : JSValue) : JSNum :=
  jsMax (.num 0) (jsMin (.num 100) (jsRound (toNumber (if truthy v then v else .num (.num 0)))))

/-- Decides whether a stored score is an integer in `[0, 100]`. -/
def isScoreInt : JSNum → Bool
  | .num q => q.den == 1 && decide (0 ≤ q) && decide (q ≤ 100)
  | _ => false

/-- A scalar is clamp-safe when it is falsy (so `v || 0` replaces it) or its
`ToNumber` coercion is an actual number (possibly infinite) rather than
`NaN`. -/
def ClampSafe (v : JSValue) : Prop := truthy v = false ∨ toNumber v ≠ JSNum.nan

instance (v : JSValue) : Decidable (ClampSafe v) := by
  unfold ClampSafe; infer_instance

/-- Raw parsed JSON of a Scorer response (`JSON.parse(content) as
EvaluationResult` in `evaluationAgent.ts`): the six numeric fields may hold
any scalar; `recommendation`/`summary` are the strings the TS interface
declares, with a missing or null field modelled as `""` (both are falsy, and
only falsiness of these fields is ever inspected); a non-array
`strengths`/`concerns` value (including a missing one) is modelled as
`none`, since only `Array.isArray` is ever inspected on them. -/
structure RawEval where
  overallScore : JSValue
  decisionQuality : JSValue
  communicationClarity : JSValue
  structuredProcess : JSValue
  riskAwareness : JSValue
  professionalJudgment : JSValue
  recommendation : String
  summary : String
  strengths : Option (List String)
  concerns : Option (List String)
deriving DecidableEq

/-- The normalized scorecard returned by `runEvaluationAgent` and persisted
into the `evaluations` table. -/
structure EvaluationResult where
  overallScore : JSNum
  decisionQuality : JSNum
  communicationClarity : JSNum
  structuredProcess : JSNum
  riskAwareness : JSNum
  professionalJudgment : JSNum
  recommendation : String
  summary : String
  strengths : List String
  concerns : List String
deriving DecidableEq

/-- The neutral scorecard of the `catch` branch of `runEvaluationAgent`. -/
def fallbackEvaluation : EvaluationResult :=
  { overallScore := .num 50
    decisionQuality := .num 50
    communicationClarity := .num 50
    structuredProcess := .num 50
    riskAwareness := .num 50
    professionalJudgment := .num 50
    recommendation := "maybe"
    summary := "The evaluation could not be fully completed due to a processing error. A manual review is recommended."
    strengths := ["Completed the interview simulation"]
    concerns := ["Automated evaluation encountered an error"] }

/-- Parse-and-normalize step plus failure fallback of `runEvaluationAgent`
(`evaluationAgent.ts`). The outcome of the completion call together with
`JSON.parse` is abstracted as the `Except` argument: `.error` covers a
rejected completion call and unparseable content (both land in the same
`catch`), `.ok` carries the parsed JSON. On success every numeric field is
passed through `clamp`, a falsy recommendation becomes `"maybe"`, a falsy
summary becomes `"Evaluation completed."`, and non-array
strengths/concerns become `[]`. -/
def runEvaluationAgent (gw : Except Unit RawEval) : EvaluationResult :=
  match gw with
  | .error _ => fallbackEvaluation
  | .ok parsed =>
    { overallScore := clamp parsed.overallScore
      decisionQuality := clamp parsed.decisionQuality
      communicationClarity := clamp parsed.communicationClarity
      structuredProcess := clamp parsed.structuredProcess
      riskAwareness := clamp parsed.riskAwareness
      professionalJudgment := clamp parsed.professionalJudgment
      recommendation := if parsed.recommendation = "" then "maybe" else parsed.recommendation
      summary := if parsed.summary = "" then "Evaluation completed." else parsed.summary
      strengths := parsed.strengths.getD []
      concerns := parsed.concerns.getD [] }

/-- Row of the `jobs` table, restricted to the fields the candidate-facing
flow reads (the DB defaults of `replit.md` are the defaults a freshly
created job carries; the services additionally re-default falsy values, see
`interviewPromptParams`). -/
structure Job where
  id : String
  title : String
  description : String
  simulationType : String
  seniorityLevel : String
  timeLimitMinutes : Int
  numQuestions : Int
  jobToken : String
  isActive : Bool
deriving DecidableEq

/-- Row of the `messages` table; `createdAt` is the store's monotone clock at
insertion time (modelling the `defaultNow()` timestamp). -/
structure MessageRow where
  applicationId : String
  role : String
  content : String
  createdAt : Nat
deriving DecidableEq

/-- The values `runInterviewAgent` computes before building its system prompt
(`interviewAgent.ts` lines 24-28): the progress counter and the `|| default`
re-defaulted job parameters (JavaScript `||` replaces the falsy values `0`
and `""`). -/
structure PromptParams where
  questionCount : Int
  maxQuestions : Int
  simulationType : String
  seniorityLevel : String
  timeLimitMinutes : Int
deriving DecidableEq

/-- Prompt parameter computation of `runInterviewAgent`: `questionCount` is
the number of assistant-authored rows in the history passed in. -/
def interviewPromptParams (job : Job) (history : List MessageRow) : PromptParams :=
  { questionCount := ((history.filter (fun m => m.role == "assistant")).length : Int)
    maxQuestions := if job.numQuestions = 0 then 8 else job.numQuestions
    simulationType := if job.simulationType = "" then "problem_solving" else job.simulationType
    seniorityLevel := if job.seniorityLevel = "" then "mid" else job.seniorityLevel
    timeLimitMinutes := if job.timeLimitMinutes = 0 then 15 else job.timeLimitMinutes }

/-- Closing-eligibility condition embedded verbatim in the system prompt:
the prompt's stage rule reads `"closing" if wrapping up
(questionCount >= maxQuestions - 1)`. -/
def closingEligible (p : PromptParams) : Bool :=
  p.maxQuestions - 1 ≤ p.questionCount

/-- System prompt of the Conductor, built exactly as the template literal of
`interviewAgent.ts` lines 30-60 (braces and apostrophes of the source text
are written with character escapes). -/
def interviewSystemPrompt (job : Job) (p : PromptParams) : String :=
  s!"You are an AI interviewer conducting a workplace simulation interview for the role: \"{job.title}\".\n\n" ++
  s!"Job Description: {job.description}\n" ++
  s!"Simulation Type: {p.simulationType}\n" ++
  s!"Seniority Level: {p.seniorityLevel}\n" ++
  s!"Time Limit: {p.timeLimitMinutes} minutes\n" ++
  s!"Maximum Questions: {p.maxQuestions}\n" ++
  s!"Questions Asked So Far: {p.questionCount}\n\n" ++
  "Your role is to simulate real workplace scenarios and evaluate the candidate\x27s decision-making abilities. Follow these rules:\n" ++
  "1. Ask ONE question at a time based on realistic workplace scenarios relevant to this role\n" ++
  "2. Adapt your follow-up questions based on the candidate\x27s responses\n" ++
  "3. Watch for red flags: inconsistencies, evasiveness, lack of depth, unprofessional responses, poor judgment\n" ++
  "4. Be professional but probing - dig deeper when answers are vague\n" ++
  "5. If this is the first message (no prior conversation), introduce the simulation scenario and ask the first question\n" ++
  s!"6. If you\x27ve asked {p.maxQuestions} or more questions, wrap up the interview gracefully\n\n" ++
  "Determine the current stage:\n" ++
  "- \"introduction\" if this is the first interaction\n" ++
  "- \"questioning\" if actively asking scenario questions\n" ++
  "- \"follow_up\" if probing deeper on a previous answer\n" ++
  s!"- \"closing\" if wrapping up ({p.questionCount} >= {p.maxQuestions - 1})\n\n" ++
  "You MUST respond with valid JSON in this exact format:\n" ++
  "\x7b\n" ++
  "  \"assistant_message\": \"Your message to the candidate\",\n" ++
  "  \"detected_flags\": [\x7b\"severity\": \"low|medium|high\", \"category\": \"category name\", \"excerpt\": \"relevant quote or observation\"\x7d],\n" ++
  "  \"stage\": \"introduction|questioning|follow_up|closing\"\n" ++
  "\x7d\n\n" ++
  "If no flags are detected, return an empty array for detected_flags."

/-- One detected flag as the Conductor reports it. -/
structure FlagData where
  severity : String
  category : String
  excerpt : String
deriving DecidableEq

/-- Raw parsed JSON of a Conductor response (`JSON.parse(content) as
InterviewResponse` in `interviewAgent.ts`): `assistant_message` and `stage`
are the strings the TS interface declares, with a missing or null field
modelled as `""` (only falsiness resp. membership in the recognized-stage
list is inspected, and `""` is falsy and unrecognized); a non-array
`detected_flags` value (including a missing one) is modelled as `none`,
since only `Array.isArray` is ever inspected on it. -/
structure RawInterview where
  assistant_message : String
  detected_flags : Option (List FlagData)
  stage : String
deriving DecidableEq

/-- The normalized per-turn result of the Conductor. -/
structure InterviewResponse where
  assistant_message : String
  detected_flags : List FlagData
  stage : String
deriving DecidableEq

/-- The canned turn of the `catch` branch of `runInterviewAgent`. -/
def fallbackInterview : InterviewResponse :=
  { assistant_message := "Thank you for your response. Could you tell me more about how you would handle a challenging situation in this role?"
    detected_flags := []
    stage := "questioning" }

/-- The four stage tags the Conductor recognizes. -/
def recognizedStages : List String :=
  ["introduction", "questioning", "follow_up", "closing"]

/-- Validation step of `runInterviewAgent` (lines 86-94): a falsy message is
replaced by a generic clarifying prompt, a non-array flags field by `[]`,
and an unrecognized stage by `"questioning"`. -/
def normalizeInterview (parsed : RawInterview) : InterviewResponse :=
  { assistant_message :=
      if parsed.assistant_message = "" then "Could you elaborate on that?"
      else parsed.assistant_message
    detected_flags := parsed.detected_flags.getD []
    stage :=
      if recognizedStages.contains parsed.stage then parsed.stage
      else "questioning" }

/-- One role-tagged chat message sent to the completion service. -/
structure ChatMsg where
  role : String
  content : String
deriving DecidableEq

/-- Projection of a stored message row onto a chat message, as done by the
history loop of `runInterviewAgent` (lines 66-71). -/
def toChat (m : MessageRow) : ChatMsg :=
  { role := m.role, content := m.content }

/-- Result of one Conductor invocation: the normalized response together with
the ordered message list that was sent to the completion service. -/
structure AgentCall where
  response : InterviewResponse
  sentMessages : List ChatMsg
deriving DecidableEq

/-- The Conductor, `runInterviewAgent` of `interviewAgent.ts`: builds the
system prompt from the job and the history, sends the system prompt, the
whole history and then the candidate message once more as a final user turn,
and normalizes the parsed result (or falls back when the call or the parse
fails, abstracted by the `Except` argument). -/
def runInterviewAgent (job : Job) (history : List MessageRow)
    (candidateMessage : String) (gw : Except Unit RawInterview) : AgentCall :=
  let p := interviewPromptParams job history
  let sent := ChatMsg.mk "system" (interviewSystemPrompt job p) ::
    (history.map toChat ++ [ChatMsg.mk "user" candidateMessage])
  match gw with
  | .error _ => { response := fallbackInterview, sentMessages := sent }
  | .ok parsed => { response := normalizeInterview parsed, sentMessages := sent }

/-- Row of the `applications` table, restricted to the fields the
candidate-facing flow reads. -/
structure ApplicationRow where
  id : String
  jobId : String
  status : String
deriving DecidableEq

/-- Row of the `evaluations` table: the persisted scorecard keyed by its
application (the column carries a UNIQUE constraint in `shared/schema.ts`). -/
structure EvalRow where
  applicationId : String
  result : EvaluationResult
deriving DecidableEq

/-- Row of the `flags` table. -/
structure FlagRow where
  applicationId : String
  severity : String
  category : String
  excerpt : String
deriving DecidableEq

/-- The record store of `server/storage.ts`: the tables the candidate-facing
routes touch, plus a monotone clock standing in for the wall-clock
`created_at` timestamps (each insert stamps the current clock and advances
it). -/
structure Store where
  jobs : List Job
  apps : List ApplicationRow
  messages : List MessageRow
  evals : List EvalRow
  flagRows : List FlagRow
  clock : Nat
deriving DecidableEq

/-- `DatabaseStorage.getApplication`: first row with the given id. -/
def getApplication (s : Store) (appId : String) : Option ApplicationRow :=
  s.apps.find? (fun a => a.id == appId)

/-- `DatabaseStorage.getJob`: first row with the given id. -/
def getJob (s : Store) (jobId : String) : Option Job :=
  s.jobs.find? (fun j => j.id == jobId)

/-- `DatabaseStorage.updateApplicationStatus`: sets the status of the rows
with the given id. -/
def updateApplicationStatus (s : Store) (appId : String) (st : String) : Store :=
  { s with apps := s.apps.map (fun a => if a.id == appId then { a with status := st } else a) }

/-- `DatabaseStorage.submitApplication`: sets status `"submitted"` (the
`submittedAt` stamp it also writes is not read anywhere in the modelled
flow). -/
def submitApplication (s : Store) (appId : String) : Store :=
  updateApplicationStatus s appId "submitted"

/-- `DatabaseStorage.createMessage`: appends a row stamped with the current
clock. -/
def createMessage (s : Store) (appId : String) (role : String) (content : String) : Store :=
  { s with
    messages := s.messages ++ [{ applicationId := appId, role := role, content := content, createdAt := s.clock }]
    clock := s.clock + 1 }

/-- `DatabaseStorage.getMessagesByApplication`: the rows of the application,
ordered by `created_at` (the SQL `ORDER BY messages.created_at` is modelled
by sorting the filtered rows on their stamp). -/
def getMessagesByApplication (s : Store) (appId : String) : List MessageRow :=
  List.insertionSort (fun a b => a.createdAt ≤ b.createdAt)
    (s.messages.filter (fun m => m.applicationId == appId))

/-- `DatabaseStorage.createEvaluation`: appends a scorecard row; the UNIQUE
constraint on `application_id` makes the insert throw when a row for the
same application already exists, modelled by the `Except`. -/
def createEvaluation (s : Store) (appId : String) (r : EvaluationResult) : Except Unit Store :=
  if s.evals.any (fun e => e.applicationId == appId) then .error ()
  else .ok { s with evals := s.evals ++ [{ applicationId := appId, result := r }] }

/-- `DatabaseStorage.createFlag`: appends a flag row. -/
def createFlag (s : Store) (appId : String) (f : FlagData) : Store :=
  { s with flagRows := s.flagRows ++ [{ applicationId := appId, severity := f.severity, category := f.category, excerpt := f.excerpt }] }

/-- Result of a candidate-facing route call: HTTP status code, the store
afterwards, and (for the message route) the chat list the Conductor sent to
the completion service, when one was sent. -/
structure RouteResult where
  statusCode : Nat
  store : Store
  sentMessages : Option (List ChatMsg)
deriving DecidableEq

/-- Handler of `POST /api/public/applications/:appId/message`
(`routes.ts` lines 174-221): rejects an unknown application (404), an
application already `submitted`/`evaluated` (400), an unknown job (404) and
falsy content (400); otherwise persists the candidate message, reloads the
full history, invokes the Conductor on it, persists the assistant message
and all detected flags, and returns 200. The completion-call outcome is the
`gw` argument. -/
def messageRoute (s : Store) (appId : String) (content : String)
    (gw : Except Unit RawInterview) : RouteResult :=
  match getApplication s appId with
  | none => { statusCode := 404, store := s, sentMessages := none }
  | some app =>
    if app.status = "submitted" ∨ app.status = "evaluated" then
      { statusCode := 400, store := s, sentMessages := none }
    else
      match getJob s app.jobId with
      | none => { statusCode := 404, store := s, sentMessages := none }
      | some job =>
        if content = "" then { statusCode := 400, store := s, sentMessages := none }
        else
          let s1 := createMessage s appId "user" content
          let history := getMessagesByApplication s1 appId
          let call := runInterviewAgent job history content gw
          let s2 := createMessage s1 appId "assistant" call.response.assistant_message
          let s3 := call.response.detected_flags.foldl (fun st f => createFlag st appId f) s2
          { statusCode := 200, store := s3, sentMessages := some call.sentMessages }

/-- Result of the submit route: HTTP status code and the store afterwards. -/
structure SubmitResult where
  statusCode : Nat
  store : Store
deriving DecidableEq

/-- Handler of `POST /api/public/applications/:appId/submit`
(`routes.ts` lines 223-267): rejects an unknown application (404), an
application already `submitted`/`evaluated` (400) and an unknown job (404);
otherwise marks the application `submitted`, and if the history is non-empty
runs the Scorer, persists the scorecard and advances the status to
`evaluated` — with the whole scoring block wrapped in an inner `try` whose
`catch` swallows any error, so the route answers 200 regardless. `scorer` is
the outcome of awaiting the Scorer call (a rejection lands in the inner
`catch`); `persistOk = false` models a storage error thrown by the
scorecard insert beyond the UNIQUE violation the store models itself. -/
def submitRoute (s : Store) (appId : String)
    (scorer : Except Unit EvaluationResult) (persistOk : Bool) : SubmitResult :=
  match getApplication s appId with
  | none => { statusCode := 404, store := s }
  | some app =>
    if app.status = "submitted" ∨ app.status = "evaluated" then
      { statusCode := 400, store := s }
    else
      match getJob s app.jobId with
      | none => { statusCode := 404, store := s }
      | some _job =>
        let s1 := submitApplication s appId
        let history := getMessagesByApplication s1 appId
        if history.length ≠ 0 then
          match scorer with
          | .error _ => { statusCode := 200, store := s1 }
          | .ok r =>
            if persistOk then
              match createEvaluation s1 appId r with
              | .error _ => { statusCode := 200, store := s1 }
              | .ok s2 => { statusCode := 200, store := updateApplicationStatus s2 appId "evaluated" }
            else { statusCode := 200, store := s1 }
        else { statusCode := 200, store := s1 }

/-- Well-formedness of a store reachable through the storage layer: message
timestamps are strictly increasing in insertion order and lie below the
clock (every insert stamps the current clock and then advances it). -/
def StoreWF (s : Store) : Prop :=
  s.messages.Pairwise (fun a b => a.createdAt < b.createdAt)
    ∧ ∀ m ∈ s.messages, m.createdAt < s.clock

instance (s : Store) : Decidable (StoreWF s) := by
  unfold StoreWF; infer_instance

/-- The single-Evaluation-per-Application invariant: no two rows of the
`evaluations` table share an application. -/
def AtMostOneEvalPerApp (s : Store) : Prop :=
  s.evals.Pairwise (fun a b => a.applicationId ≠ b.applicationId)

instance (s : Store) : Decidable (AtMostOneEvalPerApp s) := by
  unfold AtMostOneEvalPerApp; infer_instance

lemma jsRound_eq_floor (q : ℚ) :
    jsRound (.num q) = .num ((⌊q + 1/2⌋ : ℤ) : ℚ) := by
  have h2 : (0:ℤ) ≤ 2 * (q.den : ℤ) := by positivity
  have hd : ((q.den : ℚ)) ≠ 0 := by
    exact_mod_cast q.den_pos.ne'
  have hq : q + 1/2 = ((2 * q.num + (q.den : ℤ) : ℤ) : ℚ) / ((2 * q.den : ℕ) : ℚ) := by
    conv_lhs => rw [← Rat.num_div_den q]
    push_cast
    field_simp
    ring
  show JSNum.num (((2 * q.num + (q.den : ℤ)).fdiv (2 * (q.den : ℤ)) : ℤ) : ℚ) = _
  congr 1
  rw [hq, Rat.floor_intCast_div_natCast, Int.fdiv_eq_ediv _ h2]
  push_cast
  rfl

lemma isScoreInt_clamp_int (k : ℤ) :
    isScoreInt (jsMax (.num 0) (jsMin (.num 100) (.num (k : ℚ)))) = true := by
  simp only [jsMin, jsMax, isScoreInt]
  split_ifs with h1 h2 h3
  · decide
  · exact absurd (by norm_num) h2
  · simp only [Bool.and_eq_true, beq_iff_eq, decide_eq_true_eq]
    refine ⟨⟨Rat.den_intCast k, h3⟩, le_of_not_le h1⟩
  · decide

lemma clamp_scoreInt (v : JSValue) (h : ClampSafe v) : isScoreInt (clamp v) = true := by
  cases hv : truthy v with
  | false =>
    simp only [clamp, hv, Bool.false_eq_true, if_false]
    decide
  | true =>
    have hn : toNumber v ≠ JSNum.nan := by
      rcases h with h | h
      · rw [hv] at h; exact absurd h (by simp)
      · exact h
    cases he : toNumber v with
    | nan => exact absurd he hn
    | posInf => simp only [clamp, hv, if_true, he]; decide
    | negInf => simp only [clamp, hv, if_true, he]; decide
    | num q =>
      simp only [clamp, hv, if_true, he, jsRound]
      exact isScoreInt_clamp_int _

/-- C1 (counterexample): the claim is false as stated. A type-invalid,
non-numeric string in a numeric field survives the clamp as `NaN` — the
parse-and-normalize step of `runEvaluationAgent` returns it unchanged in the
scorecard (which the submit route persists), so the field is neither an
integer nor in `[0,100]`. -/
theorem scorer_score_nonNumericString_not_clamped :
    (runEvaluationAgent (.ok
      { overallScore := .str "unavailable"
        decisionQuality := .num (.num 80)
        communicationClarity := .num (.num 80)
        structuredProcess := .num (.num 80)
        riskAwareness := .num (.num 80)
        professionalJudgment := .num (.num 80)
        recommendation := "maybe"
        summary := "ok"
        strengths := some []
        concerns := some [] })).overallScore = JSNum.nan
    ∧ isScoreInt (runEvaluationAgent (.ok
      { overallScore := .str "unavailable"
        decisionQuality := .num (.num 80)
        communicationClarity := .num (.num 80)
        structuredProcess := .num (.num 80)
        riskAwareness := .num (.num 80)
        professionalJudgment := .num (.num 80)
        recommendation := "maybe"
        summary := "ok"
        strengths := some []
        concerns := some [] })).overallScore = false := by
  constructor
  · decide
  · decide

/-- C1 (amended): for every parsed Scorer response whose numeric fields are
each either falsy or coercible to an actual number — this covers every
number (negative, fractional, `NaN`, `±Infinity`), missing fields, `null`,
booleans, and numeric strings — all six numeric fields of the normalized
scorecard are integers in `[0,100]`. (A truthy value that coerces to `NaN`,
e.g. a non-numeric string, instead survives as `NaN`; see the
counterexample.) -/
theorem scorer_scores_int_in_range_of_clampSafe (raw : RawEval)
    (h1 : ClampSafe raw.overallScore)
    (h2 : ClampSafe raw.decisionQuality)
    (h3 : ClampSafe raw.communicationClarity)
    (h4 : ClampSafe raw.structuredProcess)
    (h5 : ClampSafe raw.riskAwareness)
    (h6 : ClampSafe raw.professionalJudgment) :
    isScoreInt (runEvaluationAgent (.ok raw)).overallScore = true
    ∧ isScoreInt (runEvaluationAgent (.ok raw)).decisionQuality = true
    ∧ isScoreInt (runEvaluationAgent (.ok raw)).communicationClarity = true
    ∧ isScoreInt (runEvaluationAgent (.ok raw)).structuredProcess = true
    ∧ isScoreInt (runEvaluationAgent (.ok raw)).riskAwareness = true
    ∧ isScoreInt (runEvaluationAgent (.ok raw)).professionalJudgment = true :=
  ⟨clamp_scoreInt _ h1, clamp_scoreInt _ h2, clamp_scoreInt _ h3,
   clamp_scoreInt _ h4, clamp_scoreInt _ h5, clamp_scoreInt _ h6⟩

/-- Witness for the amended C1 at an adversarial input: a negative half,
an out-of-range fractional number, a missing field, `null`, `NaN` and an
overlarge integer all clamp to integers in `[0,100]`. -/
theorem scorer_scores_int_in_range_witness :
    (ClampSafe (JSValue.num (.num (mkRat (-11) 2)))
      ∧ ClampSafe (JSValue.num (.num (mkRat 1507 10)))
      ∧ ClampSafe JSValue.undefined
      ∧ ClampSafe JSValue.null
      ∧ ClampSafe (JSValue.num .nan)
      ∧ ClampSafe (JSValue.num (.num 1000)))
    ∧ (isScoreInt (runEvaluationAgent (.ok
        { overallScore := .num (.num (mkRat (-11) 2))
          decisionQuality := .num (.num (mkRat 1507 10))
          communicationClarity := .undefined
          structuredProcess := .null
          riskAwareness := .num .nan
          professionalJudgment := .num (.num 1000)
          recommendation := ""
          summary := ""
          strengths := none
          concerns := none })).overallScore = true
      ∧ isScoreInt (runEvaluationAgent (.ok
        { overallScore := .num (.num (mkRat (-11) 2))
          decisionQuality := .num (.num (mkRat 1507 10))
          communicationClarity := .undefined
          structuredProcess := .null
          riskAwareness := .num .nan
          professionalJudgment := .num (.num 1000)
          recommendation := ""
          summary := ""
          strengths := none
          concerns := none })).decisionQuality = true
      ∧ isScoreInt (runEvaluationAgent (.ok
        { overallScore := .num (.num (mkRat (-11) 2))
          decisionQuality := .num (.num (mkRat 1507 10))
          communicationClarity := .undefined
          structuredProcess := .null
          riskAwareness := .num .nan
          professionalJudgment := .num (.num 1000)
          recommendation := ""
          summary := ""
          strengths := none
          concerns := none })).communicationClarity = true
      ∧ isScoreInt (runEvaluationAgent (.ok
        { overallScore := .num (.num (mkRat (-11) 2))
          decisionQuality := .num (.num (mkRat 1507 10))
          communicationClarity := .undefined
          structuredProcess := .null
          riskAwareness := .num .nan
          professionalJudgment := .num (.num 1000)
          recommendation := ""
          summary := ""
          strengths := none
          concerns := none })).structuredProcess = true
      ∧ isScoreInt (runEvaluationAgent (.ok
        { overallScore := .num (.num (mkRat (-11) 2))
          decisionQuality := .num (.num (mkRat 1507 10))
          communicationClarity := .undefined
          structuredProcess := .null
          riskAwareness := .num .nan
          professionalJudgment := .num (.num 1000)
          recommendation := ""
          summary := ""
          strengths := none
          concerns := none })).riskAwareness = true
      ∧ isScoreInt (runEvaluationAgent (.ok
        { overallScore := .num (.num (mkRat (-11) 2))
          decisionQuality := .num (.num (mkRat 1507 10))
          communicationClarity := .undefined
          structuredProcess := .null
          riskAwareness := .num .nan
          professionalJudgment := .num (.num 1000)
          recommendation := ""
          summary := ""
          strengths := none
          concerns := none })).professionalJudgment = true) :=
  ⟨by decide,
   scorer_scores_int_in_range_of_clampSafe _
     (by decide) (by decide) (by decide) (by decide) (by decide) (by decide)⟩

/-- C4: when the completion call underlying the Scorer fails, the result is
exactly the neutral fallback scorecard — every dimension score and the
overall score are 50, the recommendation is `maybe`, the summary states the
evaluation could not be completed and recommends a manual review, and
strengths and concerns each hold exactly one placeholder element. -/
theorem scorer_failure_fallback_exact :
    runEvaluationAgent (.error ()) = fallbackEvaluation
    ∧ (runEvaluationAgent (.error ())).overallScore = JSNum.num 50
    ∧ (runEvaluationAgent (.error ())).decisionQuality = JSNum.num 50
    ∧ (runEvaluationAgent (.error ())).communicationClarity = JSNum.num 50
    ∧ (runEvaluationAgent (.error ())).structuredProcess = JSNum.num 50
    ∧ (runEvaluationAgent (.error ())).riskAwareness = JSNum.num 50
    ∧ (runEvaluationAgent (.error ())).professionalJudgment = JSNum.num 50
    ∧ (runEvaluationAgent (.error ())).recommendation = "maybe"
    ∧ (runEvaluationAgent (.error ())).summary
        = "The evaluation could not be fully completed due to a processing error. A manual review is recommended."
    ∧ (runEvaluationAgent (.error ())).strengths = ["Completed the interview simulation"]
    ∧ (runEvaluationAgent (.error ())).concerns = ["Automated evaluation encountered an error"] := by
  refine ⟨rfl, rfl, rfl, rfl, rfl, rfl, rfl, rfl, rfl, rfl, rfl⟩

/-- C8 (counterexample): the claim is false as stated. A truthy but
unrecognized recommendation string passes through the normalization
unchanged — only a falsy recommendation is replaced by `maybe`. -/
theorem unrecognized_recommendation_kept :
    (runEvaluationAgent (.ok
      { overallScore := .num (.num 80)
        decisionQuality := .num (.num 80)
        communicationClarity := .num (.num 80)
        structuredProcess := .num (.num 80)
        riskAwareness := .num (.num 80)
        professionalJudgment := .num (.num 80)
        recommendation := "definitely_hire"
        summary := "ok"
        strengths := some []
        concerns := some [] })).recommendation = "definitely_hire"
    ∧ "definitely_hire" ∉ ["strong_hire", "hire", "maybe", "no_hire", "strong_no_hire"]
    ∧ "definitely_hire" ≠ "maybe" := by
  refine ⟨rfl, by decide, by decide⟩

/-- C8 (amended): on a successfully parsed Scorer response, a missing
(falsy) recommendation is replaced by `maybe`, a missing summary by the
canned `"Evaluation completed."` string, and non-list strengths/concerns
fields by empty lists; an unrecognized but non-empty recommendation is kept
as-is. -/
theorem scorer_defaults_for_falsy_fields (raw : RawEval) :
    (raw.recommendation = "" → (runEvaluationAgent (.ok raw)).recommendation = "maybe")
    ∧ (raw.recommendation ≠ "" → (runEvaluationAgent (.ok raw)).recommendation = raw.recommendation)
    ∧ (raw.summary = "" → (runEvaluationAgent (.ok raw)).summary = "Evaluation completed.")
    ∧ (raw.strengths = none → (runEvaluationAgent (.ok raw)).strengths = [])
    ∧ (raw.concerns = none → (runEvaluationAgent (.ok raw)).concerns = []) := by
  refine ⟨fun h => ?_, fun h => ?_, fun h => ?_, fun h => ?_, fun h => ?_⟩ <;>
    simp [runEvaluationAgent, h]

/-- Witness for the amended C8 at a concrete response with every defaulted
field missing. -/
theorem scorer_defaults_for_falsy_fields_witness :
    (runEvaluationAgent (.ok
      { overallScore := .num (.num 80)
        decisionQuality := .num (.num 80)
        communicationClarity := .num (.num 80)
        structuredProcess := .num (.num 80)
        riskAwareness := .num (.num 80)
        professionalJudgment := .num (.num 80)
        recommendation := ""
        summary := ""
        strengths := none
        concerns := none })).recommendation = "maybe"
    ∧ (runEvaluationAgent (.ok
      { overallScore := .num (.num 80)
        decisionQuality := .num (.num 80)
        communicationClarity := .num (.num 80)
        structuredProcess := .num (.num 80)
        riskAwareness := .num (.num 80)
        professionalJudgment := .num (.num 80)
        recommendation := ""
        summary := ""
        strengths := none
        concerns := none })).summary = "Evaluation completed."
    ∧ (runEvaluationAgent (.ok
      { overallScore := .num (.num 80)
        decisionQuality := .num (.num 80)
        communicationClarity := .num (.num 80)
        structuredProcess := .num (.num 80)
        riskAwareness := .num (.num 80)
        professionalJudgment := .num (.num 80)
        recommendation := ""
        summary := ""
        strengths := none
        concerns := none })).strengths = []
    ∧ (runEvaluationAgent (.ok
      { overallScore := .num (.num 80)
        decisionQuality := .num (.num 80)
        communicationClarity := .num (.num 80)
        structuredProcess := .num (.num 80)
        riskAwareness := .num (.num 80)
        professionalJudgment := .num (.num 80)
        recommendation := ""
        summary := ""
        strengths := none
        concerns := none })).concerns = [] :=
  ⟨(scorer_defaults_for_falsy_fields _).1 rfl,
   (scorer_defaults_for_falsy_fields _).2.2.1 rfl,
   (scorer_defaults_for_falsy_fields _).2.2.2.1 rfl,
   (scorer_defaults_for_falsy_fields _).2.2.2.2 rfl⟩

/-- C6: the Conductor's validation replaces an empty message text by a
generic non-empty clarifying prompt, a non-array flags field by the empty
list, and an unrecognized stage tag by `questioning`; in particular the
malformed output with empty message, non-array flags and stage `bogus`
normalizes to exactly that triple. -/
theorem conductor_normalizes_malformed_output (raw : RawInterview) :
    (raw.assistant_message = "" →
      (normalizeInterview raw).assistant_message = "Could you elaborate on that?"
        ∧ (normalizeInterview raw).assistant_message ≠ "")
    ∧ (raw.detected_flags = none → (normalizeInterview raw).detected_flags = [])
    ∧ (raw.stage ∉ recognizedStages → (normalizeInterview raw).stage = "questioning")
    ∧ normalizeInterview { assistant_message := "", detected_flags := none, stage := "bogus" }
        = { assistant_message := "Could you elaborate on that?", detected_flags := [], stage := "questioning" } := by
  refine ⟨fun h => ⟨?_, ?_⟩, fun h => ?_, fun h => ?_, by decide⟩
  · simp [normalizeInterview, h]
  · simp [normalizeInterview, h]
  · simp [normalizeInterview, h]
  · have hc : recognizedStages.contains raw.stage = false := by simpa using h
    simp only [normalizeInterview, hc, Bool.false_eq_true, if_false]

/-- Witness for C6 at the malformed output named by the claim. -/
theorem conductor_normalizes_malformed_output_witness :
    (normalizeInterview { assistant_message := "", detected_flags := none, stage := "bogus" }).assistant_message
        = "Could you elaborate on that?"
    ∧ (normalizeInterview { assistant_message := "", detected_flags := none, stage := "bogus" }).detected_flags = []
    ∧ (normalizeInterview { assistant_message := "", detected_flags := none, stage := "bogus" }).stage = "questioning" :=
  ⟨((conductor_normalizes_malformed_output _).1 rfl).1,
   (conductor_normalizes_malformed_output _).2.1 rfl,
   (conductor_normalizes_malformed_output _).2.2.1 (by decide)⟩

/-- C7: for every Conductor invocation, the `questionCount` parameterizing
the prompt equals the number of assistant-authored messages in the history
(the turn being generated is not yet in the history, so it is not counted),
and — for any job with a positive question budget, as the data model
requires — the prompt's closing-eligibility condition is exactly
`questionCount ≥ numQuestions − 1`; an empty history yields
`questionCount = 0`. -/
theorem conductor_questionCount_and_closing_rule (job : Job) (history : List MessageRow)
    (h : 0 < job.numQuestions) :
    (interviewPromptParams job history).questionCount
      = ((history.filter (fun m => m.role == "assistant")).length : Int)
    ∧ (interviewPromptParams job history).maxQuestions = job.numQuestions
    ∧ (closingEligible (interviewPromptParams job history) = true
        ↔ job.numQuestions - 1 ≤ ((history.filter (fun m => m.role == "assistant")).length : Int))
    ∧ (history = [] → (interviewPromptParams job history).questionCount = 0) := by
  have hne : job.numQuestions ≠ 0 := by omega
  refine ⟨rfl, ?_, ?_, ?_⟩
  · simp [interviewPromptParams, hne]
  · simp [closingEligible, interviewPromptParams, hne, decide_eq_true_iff]
  · intro h'
    subst h'
    rfl

/-- Witness for C7 at the scenario of the claim: `numQuestions = 3` and two
prior assistant turns give `questionCount = 2` and make the closing
condition hold (`2 ≥ 3 − 1`); an empty history gives `questionCount = 0`. -/
theorem conductor_questionCount_and_closing_rule_witness :
    (0 : Int) < 3
    ∧ (interviewPromptParams
        { id := "j1", title := "Analyst", description := "desc", simulationType := "problem_solving"
          seniorityLevel := "mid", timeLimitMinutes := 15, numQuestions := 3
          jobToken := "tok", isActive := true }
        [{ applicationId := "a1", role := "assistant", content := "q1", createdAt := 0 },
         { applicationId := "a1", role := "user", content := "r1", createdAt := 1 },
         { applicationId := "a1", role := "assistant", content := "q2", createdAt := 2 },
         { applicationId := "a1", role := "user", content := "r2", createdAt := 3 }]).questionCount = 2
    ∧ closingEligible (interviewPromptParams
        { id := "j1", title := "Analyst", description := "desc", simulationType := "problem_solving"
          seniorityLevel := "mid", timeLimitMinutes := 15, numQuestions := 3
          jobToken := "tok", isActive := true }
        [{ applicationId := "a1", role := "assistant", content := "q1", createdAt := 0 },
         { applicationId := "a1", role := "user", content := "r1", createdAt := 1 },
         { applicationId := "a1", role := "assistant", content := "q2", createdAt := 2 },
         { applicationId := "a1", role := "user", content := "r2", createdAt := 3 }]) = true
    ∧ (interviewPromptParams
        { id := "j1", title := "Analyst", description := "desc", simulationType := "problem_solving"
          seniorityLevel := "mid", timeLimitMinutes := 15, numQuestions := 3
          jobToken := "tok", isActive := true } []).questionCount = 0 := by
  refine ⟨by decide, ?_, ?_, ?_⟩
  · exact ((conductor_questionCount_and_closing_rule _ _ (by decide)).1).trans (by decide)
  · exact (conductor_questionCount_and_closing_rule _
      [{ applicationId := "a1", role := "assistant", content := "q1", createdAt := 0 },
       { applicationId := "a1", role := "user", content := "r1", createdAt := 1 },
       { applicationId := "a1", role := "assistant", content := "q2", createdAt := 2 },
       { applicationId := "a1", role := "user", content := "r2", createdAt := 3 }]
      (by decide)).2.2.1.mpr (by decide)
  · exact (conductor_questionCount_and_closing_rule _ [] (by decide)).2.2.2 rfl

lemma find?_map_status (apps : List ApplicationRow) (appId st : String) :
    (apps.map (fun a => if a.id == appId then { a with status := st } else a)).find?
        (fun a => a.id == appId)
      = (apps.find? (fun a => a.id == appId)).map (fun a => { a with status := st }) := by
  induction apps with
  | nil => rfl
  | cons hd tl ih =>
    cases h : hd.id == appId with
    | true =>
      rw [List.map_cons, if_pos h, List.find?_cons, List.find?_cons]
      dsimp only
      rw [h]
      rfl
    | false =>
      rw [List.map_cons, if_neg (by simp [h]), List.find?_cons, List.find?_cons]
      rw [h, ih]

lemma getApplication_updateStatus (s : Store) (appId st : String) :
    getApplication (updateApplicationStatus s appId st) appId
      = (getApplication s appId).map (fun a => { a with status := st }) :=
  find?_map_status s.apps appId st

lemma getMessages_eq_filter (s : Store) (appId : String) (hwf : StoreWF s) :
    getMessagesByApplication s appId
      = s.messages.filter (fun m => m.applicationId == appId) := by
  apply List.Sorted.insertionSort_eq
  exact (hwf.1.filter _).imp (fun h => le_of_lt h)

lemma createMessage_wf (s : Store) (appId role content : String) (hwf : StoreWF s) :
    StoreWF (createMessage s appId role content) := by
  constructor
  · apply List.pairwise_append.mpr
    refine ⟨hwf.1, List.pairwise_singleton _ _, ?_⟩
    intro a ha b hb
    rw [List.mem_singleton] at hb
    subst hb
    exact hwf.2 a ha
  · intro m hm
    rcases List.mem_append.mp hm with h | h
    · exact Nat.lt_succ_of_lt (hwf.2 m h)
    · rw [List.mem_singleton] at h
      subst h
      exact Nat.lt_succ_self _

lemma getMessages_createMessage (s : Store) (appId role content : String) (hwf : StoreWF s) :
    getMessagesByApplication (createMessage s appId role content) appId
      = s.messages.filter (fun m => m.applicationId == appId)
        ++ [{ applicationId := appId, role := role, content := content, createdAt := s.clock }] := by
  rw [getMessages_eq_filter _ _ (createMessage_wf s appId role content hwf)]
  show (s.messages ++ [_]).filter _ = _
  rw [List.filter_append]
  simp

/-- C10: listing the Messages of an Application returns them sorted by
creation time, and — since insertion stamps strictly increasing
timestamps — this is exactly the append-order subsequence of the message
table: the same order in which they were created. -/
theorem messages_listed_in_creation_order (s : Store) (appId : String) (hwf : StoreWF s) :
    getMessagesByApplication s appId
      = s.messages.filter (fun m => m.applicationId == appId)
    ∧ (getMessagesByApplication s appId).Pairwise (fun a b => a.createdAt < b.createdAt) := by
  have he := getMessages_eq_filter s appId hwf
  refine ⟨he, ?_⟩
  rw [he]
  exact hwf.1.filter _

/-- Witness for C10 at a store holding interleaved messages of two
applications. -/
theorem messages_listed_in_creation_order_witness :
    StoreWF
      { jobs := [], apps := []
        messages :=
          [{ applicationId := "a1", role := "user", content := "hi", createdAt := 0 },
           { applicationId := "a2", role := "user", content := "yo", createdAt := 1 },
           { applicationId := "a1", role := "assistant", content := "q1", createdAt := 2 }]
        evals := [], flagRows := [], clock := 3 }
    ∧ getMessagesByApplication
        { jobs := [], apps := []
          messages :=
            [{ applicationId := "a1", role := "user", content := "hi", createdAt := 0 },
             { applicationId := "a2", role := "user", content := "yo", createdAt := 1 },
             { applicationId := "a1", role := "assistant", content := "q1", createdAt := 2 }]
          evals := [], flagRows := [], clock := 3 } "a1"
        = ({ jobs := [], apps := []
             messages :=
               [{ applicationId := "a1", role := "user", content := "hi", createdAt := 0 },
                { applicationId := "a2", role := "user", content := "yo", createdAt := 1 },
                { applicationId := "a1", role := "assistant", content := "q1", createdAt := 2 }]
             evals := [], flagRows := [], clock := 3 } : Store).messages.filter
            (fun m => m.applicationId == "a1")
    ∧ (getMessagesByApplication
        { jobs := [], apps := []
          messages :=
            [{ applicationId := "a1", role := "user", content := "hi", createdAt := 0 },
             { applicationId := "a2", role := "user", content := "yo", createdAt := 1 },
             { applicationId := "a1", role := "assistant", content := "q1", createdAt := 2 }]
          evals := [], flagRows := [], clock := 3 } "a1").Pairwise
        (fun a b => a.createdAt < b.createdAt) :=
  ⟨by decide, (messages_listed_in_creation_order _ _ (by decide)).1,
   (messages_listed_in_creation_order _ _ (by decide)).2⟩

lemma submitRoute_eq_of_fail (s : Store) (appId : String)
    (scorer : Except Unit EvaluationResult) (persistOk : Bool) (app : ApplicationRow)
    (happ : getApplication s appId = some app)
    (hs1 : app.status ≠ "submitted") (hs2 : app.status ≠ "evaluated")
    (hjob : ∃ j, getJob s app.jobId = some j)
    (hfail : scorer = .error () ∨ persistOk = false
      ∨ s.evals.any (fun e => e.applicationId == appId) = true) :
    submitRoute s appId scorer persistOk
      = { statusCode := 200, store := submitApplication s appId } := by
  obtain ⟨j, hj⟩ := hjob
  have hcond : ¬(app.status = "submitted" ∨ app.status = "evaluated") := by
    rintro (h | h)
    · exact hs1 h
    · exact hs2 h
  simp only [submitRoute, happ, hj]
  rw [if_neg hcond]
  split
  · cases scorer with
    | error => rfl
    | ok r =>
      rcases hfail with hfail | hfail | hfail
      · exact absurd hfail (by simp)
      · subst hfail
        rfl
      · cases persistOk with
        | false => rfl
        | true =>
          have : (submitApplication s appId).evals.any
              (fun e => e.applicationId == appId) = true := hfail
          simp only [createEvaluation, this, if_true]
  · rfl

/-- C2: on a submittable Application (not yet `submitted`/`evaluated`), if
the Scorer call rejects or persisting the Evaluation throws (either a
storage error or a UNIQUE violation), the submit route swallows the error:
it still answers 200, no Evaluation row is added, and the Application ends
in status `submitted` (it would advance to `evaluated` only after the
scorecard is successfully persisted). -/
theorem submit_swallows_scorer_failure (s : Store) (appId : String)
    (scorer : Except Unit EvaluationResult) (persistOk : Bool) (app : ApplicationRow)
    (happ : getApplication s appId = some app)
    (hs1 : app.status ≠ "submitted") (hs2 : app.status ≠ "evaluated")
    (hjob : ∃ j, getJob s app.jobId = some j)
    (hfail : scorer = .error () ∨ persistOk = false
      ∨ s.evals.any (fun e => e.applicationId == appId) = true) :
    (submitRoute s appId scorer persistOk).statusCode = 200
    ∧ (submitRoute s appId scorer persistOk).store.evals = s.evals
    ∧ getApplication (submitRoute s appId scorer persistOk).store appId
        = some { app with status := "submitted" } := by
  rw [submitRoute_eq_of_fail s appId scorer persistOk app happ hs1 hs2 hjob hfail]
  refine ⟨rfl, rfl, ?_⟩
  show getApplication (updateApplicationStatus s appId "submitted") appId = _
  rw [getApplication_updateStatus, happ]
  rfl

/-- Witness for C2: a one-message in-progress application whose Scorer call
rejects; submission still answers 200, leaves the evaluations table empty
and the application `submitted`. -/
theorem submit_swallows_scorer_failure_witness :
    (submitRoute
      { jobs := [{ id := "j1", title := "Analyst", description := "desc"
                   simulationType := "problem_solving", seniorityLevel := "mid"
                   timeLimitMinutes := 15, numQuestions := 8, jobToken := "tok", isActive := true }]
        apps := [{ id := "a1", jobId := "j1", status := "in_progress" }]
        messages := [{ applicationId := "a1", role := "user", content := "hello", createdAt := 0 }]
        evals := [], flagRows := [], clock := 1 } "a1" (.error ()) true).statusCode = 200
    ∧ (submitRoute
      { jobs := [{ id := "j1", title := "Analyst", description := "desc"
                   simulationType := "problem_solving", seniorityLevel := "mid"
                   timeLimitMinutes := 15, numQuestions := 8, jobToken := "tok", isActive := true }]
        apps := [{ id := "a1", jobId := "j1", status := "in_progress" }]
        messages := [{ applicationId := "a1", role := "user", content := "hello", createdAt := 0 }]
        evals := [], flagRows := [], clock := 1 } "a1" (.error ()) true).store.evals = []
    ∧ getApplication (submitRoute
      { jobs := [{ id := "j1", title := "Analyst", description := "desc"
                   simulationType := "problem_solving", seniorityLevel := "mid"
                   timeLimitMinutes := 15, numQuestions := 8, jobToken := "tok", isActive := true }]
        apps := [{ id := "a1", jobId := "j1", status := "in_progress" }]
        messages := [{ applicationId := "a1", role := "user", content := "hello", createdAt := 0 }]
        evals := [], flagRows := [], clock := 1 } "a1" (.error ()) true).store "a1"
        = some { id := "a1", jobId := "j1", status := "submitted" } := by
  have h := submit_swallows_scorer_failure
    { jobs := [{ id := "j1", title := "Analyst", description := "desc"
                 simulationType := "problem_solving", seniorityLevel := "mid"
                 timeLimitMinutes := 15, numQuestions := 8, jobToken := "tok", isActive := true }]
      apps := [{ id := "a1", jobId := "j1", status := "in_progress" }]
      messages := [{ applicationId := "a1", role := "user", content := "hello", createdAt := 0 }]
      evals := [], flagRows := [], clock := 1 } "a1" (.error ()) true
    { id := "a1", jobId := "j1", status := "in_progress" }
    rfl (by decide) (by decide)
    ⟨{ id := "j1", title := "Analyst", description := "desc"
       simulationType := "problem_solving", seniorityLevel := "mid"
       timeLimitMinutes := 15, numQuestions := 8, jobToken := "tok", isActive := true }, rfl⟩
    (Or.inl rfl)
  exact ⟨h.1, h.2.1, h.2.2⟩

/-- C3: submitting an Application that is already `submitted` or `evaluated`
is rejected with a 400 client error and leaves the store untouched — no
second Evaluation row, no status change; moreover every submit call
preserves the at-most-one-Evaluation-per-Application invariant (the route
guard plus the UNIQUE constraint on `evaluations.application_id`). -/
theorem double_submit_rejected_and_unique_eval :
    (∀ (s : Store) (appId : String) (scorer : Except Unit EvaluationResult)
        (persistOk : Bool) (app : ApplicationRow),
      getApplication s appId = some app →
      app.status = "submitted" ∨ app.status = "evaluated" →
      submitRoute s appId scorer persistOk = { statusCode := 400, store := s })
    ∧ (∀ (s : Store) (appId : String) (scorer : Except Unit EvaluationResult)
        (persistOk : Bool),
      AtMostOneEvalPerApp s →
      AtMostOneEvalPerApp (submitRoute s appId scorer persistOk).store) := by
  constructor
  · intro s appId scorer persistOk app happ hst
    simp only [submitRoute, happ]
    rw [if_pos hst]
  · intro s appId scorer persistOk hinv
    unfold AtMostOneEvalPerApp at hinv ⊢
    simp only [submitRoute]
    split
    · exact hinv
    · split
      · exact hinv
      · split
        · exact hinv
        · split
          · split
            · exact hinv
            · rename_i r
              split
              · by_cases hany :
                    (submitApplication s appId).evals.any (fun e => e.applicationId == appId) = true
                · have hce : createEvaluation (submitApplication s appId) appId r = .error () := by
                    simp only [createEvaluation]
                    rw [if_pos hany]
                  rw [hce]
                  exact hinv
                · simp only [createEvaluation]
                  rw [if_neg hany]
                  show ((s.evals ++ [({ applicationId := appId, result := r } : EvalRow)]).Pairwise _)
                  apply List.pairwise_append.mpr
                  refine ⟨hinv, List.pairwise_singleton _ _, ?_⟩
                  intro a ha b hb
                  rw [List.mem_singleton] at hb
                  subst hb
                  intro hcontra
                  apply hany
                  apply List.any_eq_true.mpr
                  exact ⟨a, ha, by simp [hcontra]⟩
              · exact hinv
          · exact hinv

/-- Witness for C3: a second submit on an already-submitted application is a
400 no-op, and a submit that persists a scorecard into a store that already
satisfies the invariant preserves it. -/
theorem double_submit_rejected_and_unique_eval_witness :
    submitRoute
      { jobs := [{ id := "j1", title := "Analyst", description := "desc"
                   simulationType := "problem_solving", seniorityLevel := "mid"
                   timeLimitMinutes := 15, numQuestions := 8, jobToken := "tok", isActive := true }]
        apps := [{ id := "a1", jobId := "j1", status := "submitted" }]
        messages := [{ applicationId := "a1", role := "user", content := "hello", createdAt := 0 }]
        evals := [], flagRows := [], clock := 1 } "a1" (.ok fallbackEvaluation) true
      = { statusCode := 400
          store :=
            { jobs := [{ id := "j1", title := "Analyst", description := "desc"
                         simulationType := "problem_solving", seniorityLevel := "mid"
                         timeLimitMinutes := 15, numQuestions := 8, jobToken := "tok", isActive := true }]
              apps := [{ id := "a1", jobId := "j1", status := "submitted" }]
              messages := [{ applicationId := "a1", role := "user", content := "hello", createdAt := 0 }]
              evals := [], flagRows := [], clock := 1 } }
    ∧ AtMostOneEvalPerApp
      { jobs := [{ id := "j1", title := "Analyst", description := "desc"
                   simulationType := "problem_solving", seniorityLevel := "mid"
                   timeLimitMinutes := 15, numQuestions := 8, jobToken := "tok", isActive := true }]
        apps := [{ id := "a1", jobId := "j1", status := "in_progress" }]
        messages := [{ applicationId := "a1", role := "user", content := "hello", createdAt := 0 }]
        evals := [{ applicationId := "a0", result := fallbackEvaluation }]
        flagRows := [], clock := 1 }
    ∧ AtMostOneEvalPerApp
      (submitRoute
        { jobs := [{ id := "j1", title := "Analyst", description := "desc"
                     simulationType := "problem_solving", seniorityLevel := "mid"
                     timeLimitMinutes := 15, numQuestions := 8, jobToken := "tok", isActive := true }]
          apps := [{ id := "a1", jobId := "j1", status := "in_progress" }]
          messages := [{ applicationId := "a1", role := "user", content := "hello", createdAt := 0 }]
          evals := [{ applicationId := "a0", result := fallbackEvaluation }]
          flagRows := [], clock := 1 } "a1" (.ok fallbackEvaluation) true).store :=
  ⟨double_submit_rejected_and_unique_eval.1 _ _ _ _
      { id := "a1", jobId := "j1", status := "submitted" } rfl (Or.inl rfl),
   by decide,
   double_submit_rejected_and_unique_eval.2 _ _ _ _ (by decide)⟩

/-- C5: a candidate message aimed at an Application whose status is
`submitted` or `evaluated` is rejected with a 400 client error and the
store is left untouched — no Message and no Flag row is created; and
conversely, a message is only ever accepted (status 200) while the
Application exists with a status that is neither `submitted` nor
`evaluated`. -/
theorem closed_interview_rejects_message :
    (∀ (s : Store) (appId content : String) (gw : Except Unit RawInterview)
        (app : ApplicationRow),
      getApplication s appId = some app →
      app.status = "submitted" ∨ app.status = "evaluated" →
      messageRoute s appId content gw = { statusCode := 400, store := s, sentMessages := none })
    ∧ (∀ (s : Store) (appId content : String) (gw : Except Unit RawInterview),
      (messageRoute s appId content gw).statusCode = 200 →
      ∃ app, getApplication s appId = some app
        ∧ app.status ≠ "submitted" ∧ app.status ≠ "evaluated") := by
  constructor
  · intro s appId content gw app happ hst
    simp only [messageRoute, happ]
    rw [if_pos hst]
  · intro s appId content gw h
    cases happ : getApplication s appId with
    | none =>
      simp [messageRoute, happ] at h
    | some app =>
      simp only [messageRoute, happ] at h
      by_cases hst : app.status = "submitted" ∨ app.status = "evaluated"
      · rw [if_pos hst] at h
        simp at h
      · push_neg at hst
        exact ⟨app, rfl, hst.1, hst.2⟩

/-- Witness for C5: a message to a submitted application is a 400 no-op,
and a 200-accepted message implies the application was open. -/
theorem closed_interview_rejects_message_witness :
    messageRoute
      { jobs := [{ id := "j1", title := "Analyst", description := "desc"
                   simulationType := "problem_solving", seniorityLevel := "mid"
                   timeLimitMinutes := 15, numQuestions := 8, jobToken := "tok", isActive := true }]
        apps := [{ id := "a1", jobId := "j1", status := "submitted" }]
        messages := [], evals := [], flagRows := [], clock := 0 } "a1" "hello" (.error ())
      = { statusCode := 400
          store :=
            { jobs := [{ id := "j1", title := "Analyst", description := "desc"
                         simulationType := "problem_solving", seniorityLevel := "mid"
                         timeLimitMinutes := 15, numQuestions := 8, jobToken := "tok", isActive := true }]
              apps := [{ id := "a1", jobId := "j1", status := "submitted" }]
              messages := [], evals := [], flagRows := [], clock := 0 }
          sentMessages := none }
    ∧ ∃ app, getApplication
        { jobs := [{ id := "j1", title := "Analyst", description := "desc"
                     simulationType := "problem_solving", seniorityLevel := "mid"
                     timeLimitMinutes := 15, numQuestions := 8, jobToken := "tok", isActive := true }]
          apps := [{ id := "a1", jobId := "j1", status := "in_progress" }]
          messages := [], evals := [], flagRows := [], clock := 0 } "a1" = some app
        ∧ app.status ≠ "submitted" ∧ app.status ≠ "evaluated" :=
  ⟨closed_interview_rejects_message.1 _ _ _ _
      { id := "a1", jobId := "j1", status := "submitted" } rfl (Or.inl rfl),
   closed_interview_rejects_message.2
      { jobs := [{ id := "j1", title := "Analyst", description := "desc"
                   simulationType := "problem_solving", seniorityLevel := "mid"
                   timeLimitMinutes := 15, numQuestions := 8, jobToken := "tok", isActive := true }]
        apps := [{ id := "a1", jobId := "j1", status := "in_progress" }]
        messages := [], evals := [], flagRows := [], clock := 0 } "a1" "hello" (.error ()) rfl⟩

/-- C9: on an accepted candidate message, the chat list sent to the
completion service is the system prompt, then the stored history — which
already ends with the just-persisted candidate message — and then the same
candidate message appended once more as a final user turn: the latest
candidate message occurs twice, as the two final user entries. -/
theorem conductor_receives_candidate_message_twice (s : Store) (appId content : String)
    (gw : Except Unit RawInterview) (app : ApplicationRow) (job : Job)
    (hwf : StoreWF s)
    (happ : getApplication s appId = some app)
    (hs1 : app.status ≠ "submitted") (hs2 : app.status ≠ "evaluated")
    (hjob : getJob s app.jobId = some job)
    (hc : content ≠ "") :
    (messageRoute s appId content gw).sentMessages
      = some (ChatMsg.mk "system"
            (interviewSystemPrompt job (interviewPromptParams job
              (s.messages.filter (fun m => m.applicationId == appId)
                ++ [{ applicationId := appId, role := "user", content := content, createdAt := s.clock }])))
          :: ((s.messages.filter (fun m => m.applicationId == appId)).map toChat
              ++ [ChatMsg.mk "user" content, ChatMsg.mk "user" content])) := by
  have hcond : ¬(app.status = "submitted" ∨ app.status = "evaluated") := by
    rintro (h | h)
    · exact hs1 h
    · exact hs2 h
  have hh := getMessages_createMessage s appId "user" content hwf
  simp only [messageRoute, happ, hjob]
  rw [if_neg hcond, if_neg hc]
  simp only [runInterviewAgent, hh]
  cases gw with
  | error => simp [toChat, List.map_append]
  | ok parsed => simp [toChat, List.map_append]

/-- Witness for C9: on a fresh application with empty history, the chat sent
for the first candidate message is the system prompt followed by the
candidate message twice. -/
theorem conductor_receives_candidate_message_twice_witness :
    (messageRoute
      { jobs := [{ id := "j1", title := "Analyst", description := "desc"
                   simulationType := "problem_solving", seniorityLevel := "mid"
                   timeLimitMinutes := 15, numQuestions := 8, jobToken := "tok", isActive := true }]
        apps := [{ id := "a1", jobId := "j1", status := "in_progress" }]
        messages := [], evals := [], flagRows := [], clock := 0 } "a1" "hello" (.error ())).sentMessages
      = some (ChatMsg.mk "system"
            (interviewSystemPrompt
              { id := "j1", title := "Analyst", description := "desc"
                simulationType := "problem_solving", seniorityLevel := "mid"
                timeLimitMinutes := 15, numQuestions := 8, jobToken := "tok", isActive := true }
              (interviewPromptParams
                { id := "j1", title := "Analyst", description := "desc"
                  simulationType := "problem_solving", seniorityLevel := "mid"
                  timeLimitMinutes := 15, numQuestions := 8, jobToken := "tok", isActive := true }
                [{ applicationId := "a1", role := "user", content := "hello", createdAt := 0 }]))
          :: [ChatMsg.mk "user" "hello", ChatMsg.mk "user" "hello"]) :=
  conductor_receives_candidate_message_twice
    { jobs := [{ id := "j1", title := "Analyst", description := "desc"
                 simulationType := "problem_solving", seniorityLevel := "mid"
                 timeLimitMinutes := 15, numQuestions := 8, jobToken := "tok", isActive := true }]
      apps := [{ id := "a1", jobId := "j1", status := "in_progress" }]
      messages := [], evals := [], flagRows := [], clock := 0 } "a1" "hello" (.error ())
    { id := "a1", jobId := "j1", status := "in_progress" }
    { id := "j1", title := "Analyst", description := "desc"
      simulationType := "problem_solving", seniorityLevel := "mid"
      timeLimitMinutes := 15, numQuestions := 8, jobToken := "tok", isActive := true }
    (by decide) rfl (by decide) (by decide) rfl (by decide)
